import Mathlib

/-!
Verification of the dataset-validation and KPI/aggregation pipeline of the
retail sales dashboard (sales.py).  The Python functions are shallowly
embedded as executable Lean definitions: pandas DataFrames become lists of
typed rows (for the validated dataset) or lists of named columns carrying a
dtype flag (for the raw uploaded table); the in-place date conversion that
show_analysis performs on its argument is made explicit by returning the
final state of the caller table; exceptions become Except values.
-/

namespace SalesDash

/-- Required columns for the Global Superstore format (sales.py lines 78-81). -/
def REQUIRED_COLUMNS : List String :=
  ["Order Date", "Ship Date", "Category", "Sub-Category",
   "Product Name", "Sales", "Discount", "Profit", "Quantity"]

/-- Numeric columns checked by validate_dataset (sales.py line 98). -/
def numeric_columns : List String := ["Sales", "Discount", "Profit", "Quantity"]

/-- One column of the raw uploaded table: its header name, whether
pandas assigns it a numeric dtype (what is_numeric_dtype inspects; for a
zero-row column this is construction metadata, object by default), and for
each cell whether pd.to_datetime can parse it. -/
structure RawColumn where
  name : String
  numericDtype : Bool
  cellsDateParseable : List Bool
deriving DecidableEq, Repr

/-- Raw uploaded table: an ordered list of named columns. -/
structure RawTable where
  cols : List RawColumn
deriving DecidableEq, Repr

/-- Column-name membership test, modelling col in df.columns. -/
def RawTable.hasCol (df : RawTable) (c : String) : Bool :=
  df.cols.any (fun col => col.name == c)

/-- Column lookup by header name, modelling df[c]. -/
def RawTable.findCol (df : RawTable) (c : String) : Option RawColumn :=
  df.cols.find? (fun col => col.name == c)

/-- Success of pd.to_datetime(df[c]): every cell of the column parses. -/
def toDatetimeOk (df : RawTable) (c : String) : Bool :=
  match df.findCol c with
  | some col => col.cellsDateParseable.all (fun b => b)
  | none => false

/-- Result of pd.api.types.is_numeric_dtype(df[c]). -/
def isNumericCol (df : RawTable) (c : String) : Bool :=
  match df.findCol c with
  | some col => col.numericDtype
  | none => false

/-- Columns of REQUIRED_COLUMNS absent from the table, in checked order
(sales.py line 85). -/
def missingColumns (df : RawTable) : List String :=
  REQUIRED_COLUMNS.filter (fun c => ! df.hasCol c)

/-- validate_dataset (sales.py lines 83-103): missing-column check, then
date parseability of the two date columns, then numeric dtype of the four
numeric columns, reporting the first offender. -/
def validate_dataset (df : RawTable) : Bool × String :=
  let missing_columns := missingColumns df
  if missing_columns.isEmpty then
    if ! (toDatetimeOk df "Order Date" && toDatetimeOk df "Ship Date") then
      (false, "Order Date and Ship Date must be valid date formats")
    else
      match numeric_columns.find? (fun c => ! isNumericCol df c) with
      | some c => (false, "Column \x27" ++ c ++ "\x27 must contain numeric values")
      | none => (true, "Dataset validation successful")
  else
    (false, "Missing required columns: " ++ String.intercalate ", " missing_columns)

/-- Value held in a date column cell: either a not-yet-converted
representation (for example a string) denoting the given day number, or a
pandas Timestamp at that day number.  pd.to_datetime maps both to the
Timestamp form, preserving the denoted day. -/
inductive DateVal where
  | rawCell : Int → DateVal
  | ts : Int → DateVal
deriving DecidableEq, Repr

/-- Conversion by pd.to_datetime of a single cell. -/
def DateVal.toDatetime : DateVal → DateVal
  | .rawCell d => .ts d
  | .ts d => .ts d

/-- Day number denoted by the cell (the .dt.date projection). -/
def DateVal.day : DateVal → Int
  | .rawCell d => d
  | .ts d => d

/-- One transaction row of a table holding the nine required columns. -/
structure Row where
  orderDate : DateVal
  shipDate : DateVal
  category : String
  subCategory : String
  productName : String
  sales : ℚ
  discount : ℚ
  profit : ℚ
  quantity : Int
deriving DecidableEq, Repr

/-- Sum of the Sales column, df[Sales].sum(). -/
def totalSalesOf (df : List Row) : ℚ := (df.map Row.sales).sum

/-- Sum of the Profit column, df[Profit].sum(). -/
def totalProfitOf (df : List Row) : ℚ := (df.map Row.profit).sum

/-- KPI bundle returned by calculate_kpis.  avg_order_value is an Option:
none models the NaN that pandas mean yields on a zero-row table. -/
structure KPIs where
  total_sales : ℚ
  total_profit : ℚ
  profit_margin : ℚ
  avg_order_value : Option ℚ
  total_orders : Nat
deriving DecidableEq, Repr

/-- calculate_kpis (sales.py lines 176-190).  The profit-margin guard is
total_sales strictly positive, exactly as in the source. -/
def calculate_kpis (df : List Row) : KPIs :=
  let total_sales := totalSalesOf df
  let total_profit := totalProfitOf df
  { total_sales := total_sales
    total_profit := total_profit
    profit_margin := if 0 < total_sales then total_profit / total_sales * 100 else 0
    avg_order_value :=
      if df.length = 0 then none else some (total_sales / (df.length : ℚ))
    total_orders := df.length }

/-- Filter criteria chosen in the sidebar: inclusive date interval given by
day numbers, and the selected category list. -/
structure Criteria where
  startDate : Int
  endDate : Int
  categories : List String
deriving DecidableEq, Repr

/-- Row predicate of the filter (sales.py lines 305-309). -/
def rowKeep (c : Criteria) (r : Row) : Bool :=
  decide (c.startDate ≤ r.orderDate.day) && decide (r.orderDate.day ≤ c.endDate)
    && c.categories.contains r.category

/-- Filtered view: filtered_df (sales.py lines 305-309). -/
def filterRows (c : Criteria) (df : List Row) : List Row :=
  df.filter (rowKeep c)

/-- Modelled from the spec: the intersection of two range criteria, used to
compare the effect of two successive filters with one filter (the spec
names no source function for this; it is the comparison side of the
range-narrowing property). -/
def specIntersect (c1 c2 : Criteria) : Criteria :=
  { startDate := max c1.startDate c2.startDate
    endDate := min c1.endDate c2.endDate
    categories := c2.categories }

/-- Short Name column of the product aggregate (sales.py line 436):
str[:30] followed by an ellipsis, applied to every name. -/
def shortName (s : String) : String :=
  String.mk (s.data.take 30) ++ "..."

/-- Percentage of rows with negative profit (sales.py line 557).  The
source has no zero-denominator guard: on a zero-row table numpy true
division computes 0/0, which is NaN, modelled here as none. -/
def negativeProfitPct (df : List Row) : Option ℚ :=
  if df.length = 0 then none
  else some ((((df.filter (fun r => decide (r.profit < 0))).length : ℚ)
    / (df.length : ℚ)) * 100)

/-- Mean of the Discount column (sales.py line 549); none models NaN on a
zero-row table. -/
def avgDiscountOf (df : List Row) : Option ℚ :=
  if df.length = 0 then none
  else some ((df.map Row.discount).sum / (df.length : ℚ))

/-- Cell rendering for the CSV export of a row, one string per column, in
the order of REQUIRED_COLUMNS. -/
def serializeRow (r : Row) : List String :=
  [toString r.orderDate.day, toString r.shipDate.day, r.category,
   r.subCategory, r.productName, toString r.sales, toString r.discount,
   toString r.profit, toString r.quantity]

/-- Records of to_csv(index=False) (sales.py line 577): the header record
followed by one record per row, in the row order of the input table. -/
def csvRecords (df : List Row) : List (List String) :=
  REQUIRED_COLUMNS :: df.map serializeRow

/-- Delimited text of the CSV export: records joined by commas and
newlines, trailing newline as pandas emits. -/
def to_csv (df : List Row) : String :=
  String.intercalate "\n" ((csvRecords df).map (String.intercalate ",")) ++ "\n"

/-- Modelled from the spec: sorting the export rows by order date
descending (sort_values on Order Date with ascending false); insertion
sort, used only to compare against the actual export order. -/
def insertDesc (r : Row) : List Row → List Row
  | [] => [r]
  | b :: t =>
    if b.orderDate.day < r.orderDate.day then r :: b :: t
    else b :: insertDesc r t

/-- Modelled from the spec: full descending sort by order date. -/
def sortValuesDesc : List Row → List Row
  | [] => []
  | r :: t => insertDesc r (sortValuesDesc t)

/-- Ascending insertion for integer keys. -/
def insertAscInt (d : Int) : List Int → List Int
  | [] => [d]
  | b :: t => if d ≤ b then d :: b :: t else b :: insertAscInt d t

/-- Ascending insertion sort for integer keys (pandas groupby sorts its
keys). -/
def sortAscInt : List Int → List Int
  | [] => []
  | d :: t => insertAscInt d (sortAscInt t)

/-- groupby(Order Date)[Sales].sum() (sales.py line 199): one pair per
distinct order day, keys sorted ascending. -/
def groupSalesByDate (df : List Row) : List (Int × ℚ) :=
  (sortAscInt ((df.map (fun r => r.orderDate.day)).dedup)).map
    (fun d => (d, ((df.filter (fun r => decide (r.orderDate.day = d))).map Row.sales).sum))

/-- Ascending insertion for string keys. -/
def insertAscStr (s : String) : List String → List String
  | [] => [s]
  | b :: t => if decide (s ≤ b) then s :: b :: t else b :: insertAscStr s t

/-- Ascending insertion sort for string keys. -/
def sortAscStr : List String → List String
  | [] => []
  | s :: t => insertAscStr s (sortAscStr t)

/-- groupby(Category)[Profit].sum() (sales.py line 565): one pair per
distinct category, keys sorted ascending. -/
def categoryProfit (df : List Row) : List (String × ℚ) :=
  (sortAscStr ((df.map Row.category).dedup)).map
    (fun c => (c, ((df.filter (fun r => r.category == c)).map Row.profit).sum))

/-- Index of the first maximum of a nonempty key-value sequence. -/
def idxmaxAux (k : String) (v : ℚ) : List (String × ℚ) → String
  | [] => k
  | (k2, v2) :: t => if v < v2 then idxmaxAux k2 v2 t else idxmaxAux k v t

/-- Series.idxmax: first key attaining the maximum value; on an empty
series pandas raises, modelled as none. -/
def idxmaxList : List (String × ℚ) → Option String
  | [] => none
  | (k, v) :: t => some (idxmaxAux k v t)

/-- Most profitable category (sales.py line 565). -/
def bestCategoryOf (df : List Row) : Option String :=
  idxmaxList (categoryProfit df)

/-- One row of the forecast table returned by the forecasting capability. -/
structure ForecastRow where
  ds : Int
  yhat : ℚ
  yhat_lower : ℚ
  yhat_upper : ℚ
deriving DecidableEq, Repr

/-- create_sales_forecast (sales.py lines 192-214).  The Prophet fit and
predict is an external capability passed in as the predict argument; its
possible failure to fit (an uncaught exception in the source) is an error
value.  When Prophet is unavailable the source returns the pair None, None,
modelled as ok none. -/
def create_sales_forecast (prophetAvailable : Bool)
    (predict : List (Int × ℚ) → Nat → Except String (List ForecastRow))
    (df : List Row) (periods : Nat) :
    Except String (Option (List (Int × ℚ) × List ForecastRow)) :=
  if prophetAvailable then
    let sales_data := groupSalesByDate df
    match predict sales_data periods with
    | Except.error e => Except.error e
    | Except.ok fc => Except.ok (some (sales_data, fc))
  else
    Except.ok none

/-- Output of one full show_analysis pass that reaches the end. -/
structure AnalysisOutput where
  kpis : KPIs
  salesData : List (Int × ℚ)
  forecast : List ForecastRow
  avgDiscount : Option ℚ
  negProfitPct : Option ℚ
  bestCategory : String
  csvExport : String
deriving DecidableEq, Repr

/-- Body of show_analysis after the in-place date normalization, operating
on the normalized table df2 (sales.py lines 279-588): filter, KPIs, the
forecast section (which dereferences the forecast result without a None
check, so an unavailable Prophet raises a TypeError), the insights section
(idxmax raises on an empty series), then the raw-data expander with the
CSV export of the unsorted filtered table. -/
def show_analysis_result (prophetAvailable : Bool)
    (predict : List (Int × ℚ) → Nat → Except String (List ForecastRow))
    (df2 : List Row) (dateRange : Int × Int) (categories : List String)
    (forecastDays : Nat) : Except String AnalysisOutput :=
  let crit : Criteria :=
    { startDate := dateRange.1, endDate := dateRange.2, categories := categories }
  let filtered := filterRows crit df2
  let kpis := calculate_kpis filtered
  match create_sales_forecast prophetAvailable predict filtered forecastDays with
  | Except.error e => Except.error e
  | Except.ok none =>
    Except.error "TypeError: \x27NoneType\x27 object is not subscriptable"
  | Except.ok (some (sales_data, forecast)) =>
    match bestCategoryOf filtered with
    | none => Except.error "ValueError: attempt to get argmax of an empty sequence"
    | some best =>
      Except.ok
        { kpis := kpis
          salesData := sales_data
          forecast := forecast
          avgDiscount := avgDiscountOf filtered
          negProfitPct := negativeProfitPct filtered
          bestCategory := best
          csvExport := to_csv filtered }

/-- Conversion applied in place to the two date columns of the caller
table (sales.py lines 272-273). -/
def normalizeRow (r : Row) : Row :=
  { r with orderDate := r.orderDate.toDatetime, shipDate := r.shipDate.toDatetime }

/-- State of the caller table after the in-place date conversion. -/
def normalizeDf (df : List Row) : List Row := df.map normalizeRow

/-- show_analysis (sales.py lines 257-588) with its state effect explicit:
the first component is the caller table after the pass (the date columns
are written back in place at lines 272-273, the only mutation of the
source), the second the rendered output or the text of the uncaught
exception that aborts the pass. -/
def show_analysis (prophetAvailable : Bool)
    (predict : List (Int × ℚ) → Nat → Except String (List ForecastRow))
    (df : List Row) (dateRange : Int × Int) (categories : List String)
    (forecastDays : Nat) : List Row × Except String AnalysisOutput :=
  (normalizeDf df,
   show_analysis_result prophetAvailable predict (normalizeDf df) dateRange
     categories forecastDays)

/-! Concrete tables used by witnesses and counterexamples. -/

/-- Sample technology row with positive sales. -/
def rowTech : Row :=
  { orderDate := .ts 0, shipDate := .ts 1, category := "Technology",
    subCategory := "Phones", productName := "Phone", sales := 100,
    discount := 0, profit := 20, quantity := 1 }

/-- One-row table with positive total sales. -/
def dfPos : List Row := [rowTech]

/-- Zero-row table. -/
def dfZero : List Row := []

/-- One-row table whose total sales is negative and nonzero. -/
def dfNegSales : List Row :=
  [{ rowTech with sales := -1, profit := 1 }]

/-- Claim C1, amended: profit_margin equals total_profit / total_sales * 100
when total_sales is strictly positive, and equals 0 whenever
total_sales ≤ 0 — in particular whenever total_sales = 0, regardless of the
sign or magnitude of total_profit.  The guard in the source compares with
strict positivity, not with nonzeroness. -/
theorem profit_margin_guard (df : List Row) :
    (0 < totalSalesOf df →
      (calculate_kpis df).profit_margin = totalProfitOf df / totalSalesOf df * 100)
    ∧ (totalSalesOf df ≤ 0 → (calculate_kpis df).profit_margin = 0) := by
  constructor
  · intro h
    simp [calculate_kpis, if_pos h]
  · intro h
    simp [calculate_kpis, if_neg (not_lt.mpr h)]

/-- Claim C1 witness: the guard theorem applied at a table with positive
total sales and at the zero-row table. -/
theorem profit_margin_guard_witness :
    (calculate_kpis dfPos).profit_margin = totalProfitOf dfPos / totalSalesOf dfPos * 100
    ∧ (calculate_kpis dfZero).profit_margin = 0 :=
  ⟨(profit_margin_guard dfPos).1 (by norm_num [totalSalesOf, dfPos, rowTech]),
   (profit_margin_guard dfZero).2 (by norm_num [totalSalesOf, dfZero])⟩

/-- Claim C1 counterexample: on a table whose total sales is -1 (nonzero),
profit_margin is 0, not the ratio formula, so the claim as stated is false
for nonzero negative total sales. -/
theorem profit_margin_nonzero_cx :
    totalSalesOf dfNegSales ≠ 0
    ∧ (calculate_kpis dfNegSales).profit_margin
        ≠ totalProfitOf dfNegSales / totalSalesOf dfNegSales * 100 := by
  norm_num [calculate_kpis, totalSalesOf, totalProfitOf, dfNegSales, rowTech]

/-- Claim C2: on a table missing at least one required column,
validate_dataset returns false with a message listing exactly the missing
columns, joined by a comma and space, in the order the columns are checked;
the missing list is characterized as the required names the table lacks. -/
theorem validate_missing_columns (df : RawTable) (h : missingColumns df ≠ []) :
    validate_dataset df
      = (false, "Missing required columns: "
          ++ String.intercalate ", " (missingColumns df))
    ∧ ∀ c, c ∈ missingColumns df ↔ c ∈ REQUIRED_COLUMNS ∧ df.hasCol c = false := by
  have hne : (missingColumns df).isEmpty = false := by
    cases he : (missingColumns df).isEmpty
    · rfl
    · exact absurd (List.isEmpty_iff.mp he) h
  constructor
  · simp [validate_dataset, hne]
  · intro c
    simp [missingColumns, List.mem_filter]

/-- Raw table holding only the Order Date and Sales columns. -/
def tableMissingCols : RawTable :=
  { cols := [{ name := "Order Date", numericDtype := false, cellsDateParseable := [] },
             { name := "Sales", numericDtype := true, cellsDateParseable := [] }] }

/-- Claim C2 witness: the missing-columns theorem applied to a concrete
table lacking seven of the required columns. -/
theorem validate_missing_columns_witness :
    validate_dataset tableMissingCols
      = (false, "Missing required columns: "
          ++ String.intercalate ", " (missingColumns tableMissingCols))
    ∧ (("Ship Date" ∈ missingColumns tableMissingCols)
        ↔ ("Ship Date" ∈ REQUIRED_COLUMNS
            ∧ tableMissingCols.hasCol "Ship Date" = false)) :=
  ⟨(validate_missing_columns tableMissingCols (by decide)).1,
   (validate_missing_columns tableMissingCols (by decide)).2 "Ship Date"⟩

/-- Claim C3: a row is in the filtered view exactly when it is in the
table, its order day lies in the inclusive selected interval, and its
category is among the selected categories. -/
theorem filterRows_mem_iff (c : Criteria) (df : List Row) (r : Row) :
    r ∈ filterRows c df
      ↔ r ∈ df ∧ (c.startDate ≤ r.orderDate.day ∧ r.orderDate.day ≤ c.endDate
          ∧ r.category ∈ c.categories) := by
  simp [filterRows, List.mem_filter, rowKeep, and_assoc, List.contains, List.elem_iff]

/-- Claim C4: filtering with a range and then with a tighter contained
range, same category selection, equals one filter with the intersected
range. -/
theorem filterRows_narrowing (df : List Row) (c1 c2 : Criteria)
    (hcat : c1.categories = c2.categories)
    (hs : c1.startDate ≤ c2.startDate) (he : c2.endDate ≤ c1.endDate) :
    filterRows c2 (filterRows c1 df) = filterRows (specIntersect c1 c2) df := by
  have hc2 : specIntersect c1 c2 = c2 := by
    cases c2 with
    | mk s e cats =>
      simp_all [specIntersect, max_eq_right, min_eq_right]
  rw [hc2]
  unfold filterRows
  rw [List.filter_filter]
  apply List.filter_congr
  intro r _
  cases hk2 : rowKeep c2 r
  · simp
  · simp only [Bool.true_and]
    simp only [rowKeep, Bool.and_eq_true, decide_eq_true_eq] at hk2 ⊢
    obtain ⟨⟨h1, h2⟩, h3⟩ := hk2
    exact ⟨⟨le_trans hs h1, le_trans h2 he⟩, by rw [hcat]; exact h3⟩

/-- Wide criteria for the narrowing witness. -/
def critWide : Criteria :=
  { startDate := 0, endDate := 10, categories := ["Technology", "Furniture"] }

/-- Narrow criteria contained in critWide. -/
def critNarrow : Criteria :=
  { startDate := 2, endDate := 8, categories := ["Technology", "Furniture"] }

/-- First row of the spanning table, day 1. -/
def rowSpan1 : Row := { rowTech with orderDate := .ts 1 }

/-- Second row of the spanning table, day 3, Furniture. -/
def rowSpan2 : Row := { rowTech with orderDate := .ts 3, category := "Furniture" }

/-- Third row of the spanning table, day 9. -/
def rowSpan3 : Row := { rowTech with orderDate := .ts 9 }

/-- Three-row table spanning the wide range. -/
def dfSpan : List Row := [rowSpan1, rowSpan2, rowSpan3]

/-- Claim C4 witness: the narrowing theorem applied at concrete criteria
and table. -/
theorem filterRows_narrowing_witness :
    filterRows critNarrow (filterRows critWide dfSpan)
      = filterRows (specIntersect critWide critNarrow) dfSpan :=
  filterRows_narrowing dfSpan critWide critNarrow (by decide) (by decide) (by decide)

/-- Zero-row table with all nine required columns whose columns carry the
object dtype, as pd.DataFrame over the required column names with no rows
creates them. -/
def emptyObjectTable : RawTable :=
  { cols := REQUIRED_COLUMNS.map
      (fun n => { name := n, numericDtype := false, cellsDateParseable := [] }) }

/-- Claim C5 counterexample: a zero-row table with every required column
present fails validation when its numeric columns carry object dtype: the
numeric check inspects the dtype and is not vacuous on zero rows. -/
theorem validate_empty_object_cx :
    missingColumns emptyObjectTable = []
    ∧ (∀ col ∈ emptyObjectTable.cols, col.cellsDateParseable = [])
    ∧ validate_dataset emptyObjectTable
        = (false, "Column \x27Sales\x27 must contain numeric values") := by
  decide

/-- Date parseability holds for a column with no cells. -/
lemma toDatetimeOk_of_empty (df : RawTable) (c : String)
    (hc : df.hasCol c = true)
    (hrows : ∀ col ∈ df.cols, col.cellsDateParseable = []) :
    toDatetimeOk df c = true := by
  unfold RawTable.hasCol at hc
  rw [List.any_eq_true] at hc
  obtain ⟨col, hmem, hname⟩ := hc
  have hsome : (df.cols.find? (fun col => col.name == c)).isSome := by
    rw [List.find?_isSome]
    exact ⟨col, hmem, hname⟩
  obtain ⟨col2, hfind⟩ := Option.isSome_iff_exists.mp hsome
  have hmem2 : col2 ∈ df.cols := List.mem_of_find?_eq_some hfind
  unfold toDatetimeOk RawTable.findCol
  rw [hfind]
  simp [hrows col2 hmem2]

/-- Claim C5, amended: a zero-row table with all nine required columns
passes validation provided its four numeric columns carry a numeric dtype;
the date checks do pass vacuously, but the numeric-type check inspects the
column dtype and can fail on a zero-row table. -/
theorem validate_empty_numeric_ok (df : RawTable)
    (hcols : missingColumns df = [])
    (hrows : ∀ col ∈ df.cols, col.cellsDateParseable = [])
    (hnum : ∀ c ∈ numeric_columns, isNumericCol df c = true) :
    validate_dataset df = (true, "Dataset validation successful") := by
  have hcols2 : REQUIRED_COLUMNS.filter (fun c => ! df.hasCol c) = [] := hcols
  have hall : ∀ a ∈ REQUIRED_COLUMNS, df.hasCol a = true := by
    intro a ha
    have := List.filter_eq_nil_iff.mp hcols2 a ha
    simpa using this
  have hod : toDatetimeOk df "Order Date" = true :=
    toDatetimeOk_of_empty df "Order Date" (hall _ (by decide)) hrows
  have hsd : toDatetimeOk df "Ship Date" = true :=
    toDatetimeOk_of_empty df "Ship Date" (hall _ (by decide)) hrows
  have hfind : numeric_columns.find? (fun c => ! isNumericCol df c) = none := by
    rw [List.find?_eq_none]
    intro a ha
    simp [hnum a ha]
  simp [validate_dataset, hcols, hod, hsd, hfind]

/-- Zero-row table with all nine columns and numeric dtype on the four
numeric columns. -/
def emptyTypedTable : RawTable :=
  { cols := [{ name := "Order Date", numericDtype := false, cellsDateParseable := [] },
             { name := "Ship Date", numericDtype := false, cellsDateParseable := [] },
             { name := "Category", numericDtype := false, cellsDateParseable := [] },
             { name := "Sub-Category", numericDtype := false, cellsDateParseable := [] },
             { name := "Product Name", numericDtype := false, cellsDateParseable := [] },
             { name := "Sales", numericDtype := true, cellsDateParseable := [] },
             { name := "Discount", numericDtype := true, cellsDateParseable := [] },
             { name := "Profit", numericDtype := true, cellsDateParseable := [] },
             { name := "Quantity", numericDtype := true, cellsDateParseable := [] }] }

/-- Claim C5 witness: the amended theorem applied at a concrete zero-row
table with numeric dtypes. -/
theorem validate_empty_numeric_ok_witness :
    validate_dataset emptyTypedTable = (true, "Dataset validation successful") :=
  validate_empty_numeric_ok emptyTypedTable (by decide) (by decide) (by decide)

/-- Claim C6 (violated by the code): with Prophet unavailable,
create_sales_forecast returns the None pair, and show_analysis then
dereferences it without a check, so every pass aborts with a TypeError;
the insights and CSV-export sections downstream of the forecast panel
never complete, instead of the forecast panel alone being omitted. -/
theorem forecast_unavailable_aborts
    (predict : List (Int × ℚ) → Nat → Except String (List ForecastRow))
    (df : List Row) (dateRange : Int × Int) (categories : List String)
    (forecastDays : Nat) :
    (show_analysis false predict df dateRange categories forecastDays).2
      = Except.error "TypeError: \x27NoneType\x27 object is not subscriptable" := rfl

/-- Claim C7, amended: the CSV export is the header record matching the
Dataset columns followed by one record per filtered transaction, each with
one cell per column, kept in the original row order of the filtered table
rather than sorted by order date descending (the descending sort in the
source applies only to the displayed table, not to the exported text). -/
theorem csv_export_content (c : Criteria) (df : List Row) (rec : List String)
    (hrec : rec ∈ (csvRecords (filterRows c df)).tail) :
    (csvRecords (filterRows c df)).head? = some REQUIRED_COLUMNS
    ∧ (csvRecords (filterRows c df)).tail = (filterRows c df).map serializeRow
    ∧ rec.length = REQUIRED_COLUMNS.length
    ∧ to_csv (filterRows c df)
        = String.intercalate "\n"
            ((csvRecords (filterRows c df)).map (String.intercalate ",")) ++ "\n" := by
  refine ⟨rfl, rfl, ?_, rfl⟩
  simp only [csvRecords, List.tail_cons, List.mem_map] at hrec
  obtain ⟨r, _, hr⟩ := hrec
  rw [← hr]
  rfl

/-- Claim C7 witness: the export-content theorem applied at a concrete
filtered table and one of its exported records. -/
theorem csv_export_content_witness :
    (csvRecords (filterRows critWide dfSpan)).head? = some REQUIRED_COLUMNS
    ∧ (csvRecords (filterRows critWide dfSpan)).tail
        = (filterRows critWide dfSpan).map serializeRow
    ∧ (serializeRow rowSpan1).length = REQUIRED_COLUMNS.length
    ∧ to_csv (filterRows critWide dfSpan)
        = String.intercalate "\n"
            ((csvRecords (filterRows critWide dfSpan)).map (String.intercalate ",")) ++ "\n" :=
  csv_export_content critWide dfSpan (serializeRow rowSpan1) (by decide)

/-- Claim C7 counterexample: with two filtered rows in ascending date
order the export keeps the original order, while the claimed descending
sort would swap them, so the exported records differ from the
descending-sorted records. -/
theorem csv_export_not_sorted_cx :
    csvRecords (filterRows critWide dfSpan)
      ≠ REQUIRED_COLUMNS ::
          (sortValuesDesc (filterRows critWide dfSpan)).map serializeRow := by
  decide

/-- Stub forecasting capability for concrete pipeline runs. -/
def predictStub : List (Int × ℚ) → Nat → Except String (List ForecastRow) :=
  fun _ _ => Except.ok []

/-- One-row table whose date cells are still in unconverted form. -/
def dfRawDates : List Row :=
  [{ rowTech with orderDate := .rawCell 0, shipDate := .rawCell 1 }]

/-- Claim C8 counterexample: a pass over a table whose date columns are
not yet Timestamps writes the converted columns back into the source,
whose cells afterwards differ from the originals. -/
theorem show_analysis_mutates_cx :
    (show_analysis true predictStub dfRawDates (0, 10) ["Technology"] 90).1
      ≠ dfRawDates := by
  decide

/-- Normalization is the identity on a table whose date cells are already
Timestamps. -/
lemma normalizeDf_eq_self : ∀ df : List Row,
    (∀ r ∈ df, r.orderDate.toDatetime = r.orderDate
      ∧ r.shipDate.toDatetime = r.shipDate) →
    normalizeDf df = df
  | [], _ => rfl
  | r :: t, h => by
    have hr := h r (List.mem_cons_self r t)
    have ht := normalizeDf_eq_self t (fun x hx => h x (List.mem_cons_of_mem r hx))
    unfold normalizeDf at ht ⊢
    rw [List.map_cons, ht]
    have hrow : normalizeRow r = r := by
      cases r with
      | mk od sd cat sub pn s d pr q =>
        simp only [normalizeRow] at hr ⊢
        simp_all
    rw [hrow]

/-- Claim C8, amended: the filter, KPI, aggregation and forecast steps of
a pass are pure functions of the table; the only in-place write is the
date normalization at the start of the pass, so on a table whose date
columns already hold Timestamps the source is unchanged afterwards. -/
theorem show_analysis_preserves_normalized (p : Bool)
    (predict : List (Int × ℚ) → Nat → Except String (List ForecastRow))
    (df : List Row) (dateRange : Int × Int) (categories : List String)
    (forecastDays : Nat)
    (h : ∀ r ∈ df, r.orderDate.toDatetime = r.orderDate
          ∧ r.shipDate.toDatetime = r.shipDate) :
    (show_analysis p predict df dateRange categories forecastDays).1 = df :=
  normalizeDf_eq_self df h

/-- Claim C8 witness: the preservation theorem applied at a concrete
already-normalized table. -/
theorem show_analysis_preserves_normalized_witness :
    (show_analysis true predictStub dfSpan (0, 10) ["Technology"] 90).1 = dfSpan :=
  show_analysis_preserves_normalized true predictStub dfSpan (0, 10)
    ["Technology"] 90 (by decide)

/-- Claim C9 (violated by the code): the negative-profit percentage has no
zero-denominator guard in the source; on a zero-row filtered table it
computes 0/0 under numpy true division, which is NaN (here none), not 0. -/
theorem negativeProfitPct_empty_nan :
    negativeProfitPct dfZero = none ∧ negativeProfitPct dfZero ≠ some 0 := by
  constructor
  · rfl
  · simp [negativeProfitPct, dfZero]

/-- Claim C10 counterexample: the five-character name Chair does not
exceed the prefix length, yet its display key gains the ellipsis suffix
and so differs from the original name. -/
theorem shortName_short_modified_cx :
    ("Chair".length ≤ 30) ∧ shortName "Chair" ≠ "Chair" := by
  decide

/-- Claim C10, amended: the display key appends the ellipsis suffix to the
30-character prefix of every product name, regardless of length; a name
not exceeding the prefix length keeps its full text but still gains the
suffix, so it does not appear unmodified. -/
theorem shortName_appends_unconditionally (s : String) (h : s.length ≤ 30) :
    shortName s = s ++ "..." ∧ shortName s ≠ s := by
  have h2 : s.data.length ≤ 30 := h
  have h1 : shortName s = s ++ "..." := by
    show String.mk (s.data.take 30) ++ "..." = s ++ "..."
    rw [List.take_of_length_le h2]
  refine ⟨h1, ?_⟩
  rw [h1]
  intro heq
  have hlen := congrArg String.length heq
  rw [String.length_append] at hlen
  have h3 : ("..." : String).length = 3 := rfl
  rw [h3] at hlen
  omega

/-- Claim C10 witness: the unconditional-suffix theorem applied at the
short name Chair. -/
theorem shortName_appends_unconditionally_witness :
    shortName "Chair" = "Chair" ++ "..." ∧ shortName "Chair" ≠ "Chair" :=
  shortName_appends_unconditionally "Chair" (by decide)

end SalesDash
